import Mathlib

/-!
Shallow embedding of the my-reading-log core logic:
  - `src/src/App.jsx` (`filteredData`: filter predicate and sort comparator)
  - `src/src/data/readingData.js` (`allSampleData`, `getTagFrequency`, `getReadingStats`)

Modelling conventions:
  - JS strings are Lean `String`s; JS relational `<` / `>` on strings is
    lexicographic code-unit order, modelled by Lean's `String` order
    (identical on the ASCII data involved).
  - ISO date strings "YYYY-MM-DD" compare under `new Date(..)` exactly as
    they do lexicographically, so date keys are kept as strings.
  - JS `null` becomes `Option.none`; `x || d` on strings treats both `null`
    and `""` as falsy.
  - JS numbers in the statistics are modelled by `ℚ`; a division by zero
    (the only non-finite case arising, `0/0 = NaN`) is modelled by
    `Option.none`, and `Math.round` on `NaN` propagates `none`.
  - `Array.prototype.filter` builds a fresh array; `Array.prototype.sort`
    sorts in place and is stable (ES2019).  The comparator returns only 1
    and -1, with -1 on ties in either orientation, so the engine's stable
    sort behaves as a stable sort by the predicate `comparator a b ≤ 0`;
    we model it by a stable insertion sort on lists.
-/

namespace ReadingLog

/-- `leadsWith s t` : the char list `t` is an initial run of `s`. -/
def leadsWith : List Char → List Char → Bool
  | _, [] => true
  | [], _ :: _ => false
  | c :: cs, d :: ds => c == d && leadsWith cs ds

/-- `subMatch s t` : `t` occurs contiguously inside `s`
(the substring test behind JS `String.prototype.includes`). -/
def subMatch : List Char → List Char → Bool
  | [], t => t.isEmpty
  | c :: cs, t => leadsWith (c :: cs) t || subMatch cs t

/-- JS `s.includes(t)`. -/
def jsIncludes (s t : String) : Bool :=
  subMatch s.data t.data

/-- JS `s.toLowerCase()` (ASCII-faithful): lower each character. -/
def jsToLower (s : String) : String :=
  ⟨s.data.map Char.toLower⟩

/-- The fields of a reading-log entry that the filter/sort/aggregation
core reads (`readingEntrySchema` in `readingData.js`); purely
presentational fields (link, platform, quotes, …) are omitted as no
logic touches them. -/
structure Entry where
  id : String
  dateAdded : String
  dateRead : Option String
  title : String
  author : String
  type : String
  tags : List String
  status : String
  rating : Option Int
  impact : Option Int
deriving DecidableEq

/-- The sort-field dropdown values (`sortBy` state in `App.jsx`). -/
inductive SortField
  | dateAdded
  | dateRead
  | title
  | rating
deriving DecidableEq

/-- The sort-direction toggle (`sortOrder` state in `App.jsx`). -/
inductive SortDir
  | asc
  | desc
deriving DecidableEq

/-- The UI filter/sort state consumed by `filteredData`. -/
structure Filters where
  searchTerm : String
  selectedStatus : String
  selectedType : String
  selectedTag : String
  sortBy : SortField
  sortOrder : SortDir

/-- `matchesSearch` from `App.jsx` lines 25-27: the search text matches
the lowered title, the lowered author, or some lowered tag by substring. -/
def matchesSearch (searchTerm : String) (item : Entry) : Bool :=
  jsIncludes (jsToLower item.title) (jsToLower searchTerm) ||
  jsIncludes (jsToLower item.author) (jsToLower searchTerm) ||
  item.tags.any (fun tag => jsIncludes (jsToLower tag) (jsToLower searchTerm))

/-- The filter predicate of `filteredData` (`App.jsx` lines 24-32):
`matchesSearch && matchesStatus && matchesType && matchesTag`. -/
def passesFilter (f : Filters) (item : Entry) : Bool :=
  matchesSearch f.searchTerm item &&
  (f.selectedStatus == "all" || item.status == f.selectedStatus) &&
  (f.selectedType == "all" || item.type == f.selectedType) &&
  (f.selectedTag == "all" || item.tags.contains f.selectedTag)

/-- Values the comparator of `App.jsx` compares: strings (titles and
Date-converted ISO date strings) and numbers (ratings, `null` coerced
to 0 by the JS relational operators). -/
inductive SortKey
  | str (s : String)
  | num (n : Int)
deriving DecidableEq

/-- JS `v || d` for a possibly-null string `v`: `null` and `""` are falsy. -/
def jsOrStr (v : Option String) (d : String) : String :=
  match v with
  | none => d
  | some s => if s = "" then d else s

/-- The key `a[sortBy]` after the date-sentinel substitution of
`App.jsx` lines 37-43 (`new Date(aValue || '1900-01-01')`). -/
def sortKeyOf (sb : SortField) (item : Entry) : SortKey :=
  match sb with
  | .dateAdded => .str (jsOrStr (some item.dateAdded) "1900-01-01")
  | .dateRead => .str (jsOrStr item.dateRead "1900-01-01")
  | .title => .str item.title
  | .rating => .num ((item.rating).getD 0)

/-- JS `<` on strings: strict lexicographic code-unit comparison. -/
def charsLt : List Char → List Char → Bool
  | _, [] => false
  | [], _ :: _ => true
  | a :: as, b :: bs => decide (a < b) || (a == b && charsLt as bs)

/-- JS `s < t` for strings. -/
def strLt (s t : String) : Bool :=
  charsLt s.data t.data

/-- JS strict `<` on two sort keys of like kind (the only comparisons
that occur: a fixed `sortBy` produces keys of one kind). -/
def SortKey.ltB : SortKey → SortKey → Bool
  | .str a, .str b => strLt a b
  | .num a, .num b => decide (a < b)
  | _, _ => false

/-- The comparator of `App.jsx` lines 36-49:
ascending `aValue > bValue ? 1 : -1`, descending `aValue < bValue ? 1 : -1`. -/
def sortComparator (sb : SortField) (ord : SortDir) (a b : Entry) : Int :=
  let aValue := sortKeyOf sb a
  let bValue := sortKeyOf sb b
  match ord with
  | .asc => if SortKey.ltB bValue aValue then 1 else -1
  | .desc => if SortKey.ltB aValue bValue then 1 else -1

/-- `a` may stay left of `b` under the comparator (`comparator a b ≤ 0`). -/
def sortLe (sb : SortField) (ord : SortDir) (a b : Entry) : Bool :=
  decide (sortComparator sb ord a b ≤ 0)

/-- Insert `a` into `l` before the first element it may precede. -/
def insertLe {α : Type} (le : α → α → Bool) (a : α) : List α → List α
  | [] => [a]
  | b :: l => if le a b then a :: b :: l else b :: insertLe le a l

/-- Stable insertion sort by a boolean `le`; models the ES2019-stable
`Array.prototype.sort` under the comparator above (ties answer -1, i.e.
"left stays left", in either orientation). -/
def stableSort {α : Type} (le : α → α → Bool) : List α → List α
  | [] => []
  | b :: l => insertLe le b (stableSort le l)

/-- `filteredData` from `App.jsx` lines 23-53: filter the store, then
sort the filtered copy. -/
def filteredData (store : List Entry) (f : Filters) : List Entry :=
  stableSort (sortLe f.sortBy f.sortOrder) (store.filter (passesFilter f))

/-- `getTagFrequency` from `readingData.js` lines 282-290, as the final
lookup table: every tag occurrence of every entry bumps its count. -/
def bumpTag (m : String → Nat) (tag : String) : String → Nat :=
  fun t => if t = tag then m tag + 1 else m t

/-- The tag-frequency table: `tagCount[tag] = (tagCount[tag] || 0) + 1`
accumulated over each entry and each tag, read back as a total function
(absent tags read 0, as `tagCount[t] || 0` would). -/
def getTagFrequency (data : List Entry) : String → Nat :=
  data.foldl (fun tagCount item => item.tags.foldl bumpTag tagCount) (fun _ => 0)

/-- JS `Math.round` (half away from zero is half toward +∞ in JS). -/
def jsRound (q : ℚ) : ℚ :=
  ((⌊q + 1 / 2⌋ : ℤ) : ℚ)

/-- JS division, `none` marking the non-finite result of a zero divisor
(the only case `getReadingStats` can hit is `0/0 = NaN`). -/
def jsDiv (a b : ℚ) : Option ℚ :=
  if b = 0 then none else some (a / b)

/-- The record returned by `getReadingStats`; the two averages are
`Option ℚ`, `none` standing for JS `NaN`. -/
structure ReadingStats where
  totalItems : Nat
  readItems : Nat
  inProgress : Nat
  toRead : Nat
  averageRating : Option ℚ
  averageImpact : Option ℚ
deriving DecidableEq

/-- `getReadingStats` from `readingData.js` lines 292-305: the averages
sum `item.rating || 0` (resp. `item.impact || 0`) over the read entries,
divide by the read count, then `Math.round(x * 10) / 10`. -/
def getReadingStats (data : List Entry) : ReadingStats :=
  let readItems := data.filter (fun item => item.status == "read")
  let averageRating :=
    jsDiv ((readItems.map (fun item => (((item.rating).getD 0 : ℤ) : ℚ))).sum)
      (readItems.length : ℚ)
  let averageImpact :=
    jsDiv ((readItems.map (fun item => (((item.impact).getD 0 : ℤ) : ℚ))).sum)
      (readItems.length : ℚ)
  { totalItems := data.length
    readItems := readItems.length
    inProgress := (data.filter (fun item => item.status == "in-progress")).length
    toRead := (data.filter (fun item => item.status == "to-read")).length
    averageRating := averageRating.map (fun q => jsRound (q * 10) / 10)
    averageImpact := averageImpact.map (fun q => jsRound (q * 10) / 10) }

/-- A JS heap of arrays of entries, to state the frame property of
`filteredData`: array values are reached through references. -/
structure Heap where
  arrays : Nat → List Entry
  next : Nat

/-- Allocate a fresh array (what `Array.prototype.filter` does). -/
def Heap.alloc (h : Heap) (xs : List Entry) : Nat × Heap :=
  (h.next, ⟨fun r => if r = h.next then xs else h.arrays r, h.next + 1⟩)

/-- Overwrite the array behind `r` (what the in-place sort does). -/
def Heap.write (h : Heap) (r : Nat) (xs : List Entry) : Heap :=
  ⟨fun q => if q = r then xs else h.arrays q, h.next⟩

/-- `filteredData` as a heap program: `filter` reads the store and
allocates a fresh array, `sort` mutates only that fresh array, and the
reference to the fresh array is returned. -/
def filteredDataProg (h : Heap) (storeRef : Nat) (f : Filters) : Nat × Heap :=
  let filtered := (h.arrays storeRef).filter (passesFilter f)
  let alloc := h.alloc filtered
  let viewRef := alloc.1
  let h1 := alloc.2
  let h2 := h1.write viewRef (stableSort (sortLe f.sortBy f.sortOrder) (h1.arrays viewRef))
  (viewRef, h2)

/-- `allSampleData` from `readingData.js` lines 29-275, restricted to the
fields of `Entry` (the omitted fields are never read by the core). -/
def allSampleData : List Entry :=
  [ { id := "1", dateAdded := "2025-01-15", dateRead := some "2025-01-20",
      title := "The Three Types of Data Drift", author := "Jane Doe",
      type := "linkedin_post",
      tags := ["Machine Learning", "Data Quality", "MLOps"],
      status := "read", rating := some 4, impact := some 4 },
    { id := "2", dateAdded := "2025-01-10", dateRead := some "2025-01-25",
      title := "Atomic Habits", author := "James Clear", type := "book",
      tags := ["Productivity", "Self-Improvement", "Psychology"],
      status := "read", rating := some 5, impact := some 5 },
    { id := "3", dateAdded := "2025-02-01", dateRead := none,
      title := "The Future of AI in Healthcare", author := "Dr. Sarah Johnson",
      type := "video",
      tags := ["AI", "Healthcare", "Technology", "Future Trends"],
      status := "to-read", rating := none, impact := none },
    { id := "4", dateAdded := "2025-01-28", dateRead := some "2025-02-05",
      title := "Building Resilient Distributed Systems", author := "Martin Fowler",
      type := "article",
      tags := ["Software Architecture", "Distributed Systems", "Resilience"],
      status := "read", rating := some 4, impact := some 4 },
    { id := "5", dateAdded := "2025-02-03", dateRead := some "2025-02-08",
      title := "The Tim Ferriss Show: Naval Ravikant", author := "Tim Ferriss",
      type := "podcast",
      tags := ["Entrepreneurship", "Philosophy", "Wealth", "Happiness"],
      status := "read", rating := some 5, impact := some 5 },
    { id := "6", dateAdded := "2025-02-10", dateRead := some "2025-02-15",
      title := "The Lean Startup", author := "Eric Ries", type := "book",
      tags := ["Entrepreneurship", "Product Management", "Innovation"],
      status := "read", rating := some 4, impact := some 4 },
    { id := "7", dateAdded := "2025-02-12", dateRead := none,
      title := "Understanding Large Language Models", author := "Google AI Blog",
      type := "article",
      tags := ["AI", "Natural Language Processing", "Deep Learning"],
      status := "in-progress", rating := none, impact := none },
    { id := "8", dateAdded := "2025-02-18", dateRead := some "2025-02-20",
      title := "The Power of Habit", author := "Charles Duhigg", type := "book",
      tags := ["Psychology", "Habit Formation", "Behavioral Science"],
      status := "read", rating := some 5, impact := some 5 },
    { id := "9", dateAdded := "2025-02-20", dateRead := some "2025-02-22",
      title := "Why We Sleep", author := "Matthew Walker", type := "book",
      tags := ["Health", "Science", "Sleep"],
      status := "read", rating := some 5, impact := some 5 },
    { id := "10", dateAdded := "2025-02-25", dateRead := none,
      title := "Mastering React Hooks", author := "Dan Abramov", type := "article",
      tags := ["Programming", "React", "Frontend Development"],
      status := "to-read", rating := none, impact := none } ]

/-- The spec-side reading of the search condition: `needle` is
case-insensitively contained in `hay`. -/
def ciContained (needle hay : String) : Prop :=
  jsIncludes (jsToLower hay) (jsToLower needle) = true

/-- A minimal entry for concrete instantiations: title mirrors the id,
tags empty, impact mirrors the rating. -/
def mkE (i : String) (st : String) (r : Option Int) : Entry :=
  { id := i, dateAdded := "2025-01-01", dateRead := none, title := i,
    author := "author", type := "book", tags := [], status := st,
    rating := r, impact := r }

/-- A to-read entry tagged `["A", "B"]`. -/
def entryAB : Entry :=
  { mkE "e1" "to-read" none with tags := ["A", "B"] }

/-- A to-read entry tagged `["A"]`. -/
def entryA : Entry :=
  { mkE "e2" "to-read" none with tags := ["A"] }

/-- An entry tagged `["ai"]` (lower case). -/
def entryLowerAi : Entry :=
  { mkE "e3" "to-read" none with tags := ["ai"] }

/-- A read entry rated 4. -/
def readRated4 : Entry := mkE "r4" "read" (some 4)

/-- A read entry with no rating at all. -/
def readUnrated : Entry := mkE "ru" "read" none

/-- A ten-entry store with exactly six read entries carrying the ratings
4, 5, 4, 5, 5, 5. -/
def tenEntryStore : List Entry :=
  [ mkE "1" "read" (some 4), mkE "2" "read" (some 5), mkE "3" "read" (some 4),
    mkE "4" "read" (some 5), mkE "5" "read" (some 5), mkE "6" "read" (some 5),
    mkE "7" "to-read" none, mkE "8" "to-read" none,
    mkE "9" "in-progress" none, mkE "10" "to-read" none ]

/-! ## Shared lemmas -/

theorem insertLe_perm {α : Type} (le : α → α → Bool) (a : α) (l : List α) :
    (insertLe le a l).Perm (a :: l) := by
  induction l with
  | nil => simp [insertLe]
  | cons b l ih =>
    by_cases h : le a b
    · simp [insertLe, h]
    · simp only [insertLe, h, Bool.false_eq_true, if_false]
      exact (ih.cons b).trans (List.Perm.swap a b l)

theorem stableSort_perm {α : Type} (le : α → α → Bool) (l : List α) :
    (stableSort le l).Perm l := by
  induction l with
  | nil => simp [stableSort]
  | cons b l ih =>
    exact (insertLe_perm le b (stableSort le l)).trans (ih.cons b)

theorem mem_filteredData {e : Entry} {store : List Entry} {f : Filters} :
    e ∈ filteredData store f ↔ e ∈ store ∧ passesFilter f e = true := by
  rw [filteredData, (stableSort_perm _ _).mem_iff, List.mem_filter]

theorem subMatch_nil (s : List Char) : subMatch s [] = true := by
  cases s <;> simp [subMatch, leadsWith]

theorem jsToLower_empty : jsToLower "" = "" := by decide

theorem jsIncludes_empty (s : String) : jsIncludes s "" = true :=
  subMatch_nil s.data

theorem matchesSearch_iff (searchTerm : String) (e : Entry) :
    matchesSearch searchTerm e = true ↔
      (searchTerm = "" ∨ ciContained searchTerm e.title ∨
        ciContained searchTerm e.author ∨ ∃ t ∈ e.tags, ciContained searchTerm t) := by
  simp only [matchesSearch, Bool.or_eq_true, List.any_eq_true]
  constructor
  · intro h
    rcases h with (h | h) | h
    · exact .inr (.inl h)
    · exact .inr (.inr (.inl h))
    · exact .inr (.inr (.inr h))
  · intro h
    rcases h with h | h | h | h
    · subst h
      exact .inl (.inl (by rw [jsToLower_empty]; exact jsIncludes_empty _))
    · exact .inl (.inl h)
    · exact .inl (.inr h)
    · exact .inr h

theorem passesFilter_iff (f : Filters) (e : Entry) :
    passesFilter f e = true ↔
      ((f.searchTerm = "" ∨ ciContained f.searchTerm e.title ∨
          ciContained f.searchTerm e.author ∨ ∃ t ∈ e.tags, ciContained f.searchTerm t) ∧
        (f.selectedStatus = "all" ∨ e.status = f.selectedStatus) ∧
        (f.selectedType = "all" ∨ e.type = f.selectedType) ∧
        (f.selectedTag = "all" ∨ f.selectedTag ∈ e.tags)) := by
  simp only [passesFilter, Bool.and_eq_true, Bool.or_eq_true, beq_iff_eq,
    List.elem_iff, decide_eq_true_eq, matchesSearch_iff, and_assoc, List.contains]

/-- C1: an entry of the store is in the derived view iff it satisfies all
four filter conditions conjunctively: search text empty or case-insensitively
contained in title, author or some tag; status filter "all" or equal to the
status; type filter "all" or equal to the type; tag filter "all" or an exact
member of the tags. -/
theorem c1_view_membership (store : List Entry) (f : Filters) (e : Entry)
    (he : e ∈ store) :
    e ∈ filteredData store f ↔
      ((f.searchTerm = "" ∨ ciContained f.searchTerm e.title ∨
          ciContained f.searchTerm e.author ∨ ∃ t ∈ e.tags, ciContained f.searchTerm t) ∧
        (f.selectedStatus = "all" ∨ e.status = f.selectedStatus) ∧
        (f.selectedType = "all" ∨ e.type = f.selectedType) ∧
        (f.selectedTag = "all" ∨ f.selectedTag ∈ e.tags)) := by
  rw [mem_filteredData, passesFilter_iff]
  exact and_iff_right he

/-- Witness for C1 at a concrete store, entry and filter setting. -/
theorem c1_view_membership_witness :
    (allSampleData[2] ∈ allSampleData) ∧
      (allSampleData[2] ∈
          filteredData allSampleData ⟨"", "all", "all", "AI", .dateAdded, .desc⟩ ↔
        (((""  : String) = "" ∨ ciContained "" (allSampleData[2]).title ∨
            ciContained "" (allSampleData[2]).author ∨
            ∃ t ∈ (allSampleData[2]).tags, ciContained "" t) ∧
          (("all" : String) = "all" ∨ (allSampleData[2]).status = "all") ∧
          (("all" : String) = "all" ∨ (allSampleData[2]).type = "all") ∧
          (("AI" : String) = "all" ∨ ("AI" : String) ∈ (allSampleData[2]).tags))) :=
  ⟨by decide,
    c1_view_membership allSampleData ⟨"", "all", "all", "AI", .dateAdded, .desc⟩
      allSampleData[2] (by decide)⟩

/-- C2 counterexample: on the empty store (which has zero read entries)
`getReadingStats` propagates the JS `0/0 = NaN` (modelled `none`) into
`averageRating`; it is neither the sentinel 0 nor any defined value, so
the claimed sentinel behaviour fails at this concrete input. -/
theorem c2_counterexample_empty_store :
    (getReadingStats ([] : List Entry)).averageRating = none ∧
      (getReadingStats ([] : List Entry)).averageRating ≠ some 0 := by
  constructor
  · simp [getReadingStats, jsDiv]
  · simp [getReadingStats, jsDiv]

/-- C2 (amended): for every entry sequence with zero entries of status
"read", `getReadingStats` computes `0/0` and returns the undefined JS
value NaN (modelled `none`) for `averageRating` and `averageImpact` —
not a defined sentinel; on the empty store it does return
`totalItems = 0`. -/
theorem c2_no_read_entries_nan (data : List Entry)
    (h : data.filter (fun item => item.status == "read") = []) :
    (getReadingStats data).averageRating = none ∧
      (getReadingStats data).averageImpact = none ∧
      (getReadingStats data).totalItems = data.length := by
  refine ⟨?_, ?_, rfl⟩ <;> simp [getReadingStats, jsDiv, h]

/-- Witness for C2 (amended) at a nonempty store with no read entry. -/
theorem c2_no_read_entries_nan_witness :
    (getReadingStats [entryA]).averageRating = none ∧
      (getReadingStats [entryA]).averageImpact = none ∧
      (getReadingStats [entryA]).totalItems = [entryA].length :=
  c2_no_read_entries_nan [entryA] (by decide)

theorem bumpTag_foldl (tags : List String) (acc : String → Nat) (t : String) :
    (tags.foldl bumpTag acc) t = acc t + tags.count t := by
  induction tags generalizing acc with
  | nil => simp
  | cons a rest ih =>
    rw [List.foldl_cons, ih, List.count_cons]
    by_cases h : t = a
    · subst h
      simp [bumpTag]
      omega
    · simp [bumpTag, h, Ne.symm h]

theorem getTagFrequency_foldl (data : List Entry) (acc : String → Nat) (t : String) :
    (data.foldl (fun tagCount item => item.tags.foldl bumpTag tagCount) acc) t
      = acc t + (data.map (fun item => item.tags.count t)).sum := by
  induction data generalizing acc with
  | nil => simp
  | cons e rest ih =>
    rw [List.foldl_cons, ih, bumpTag_foldl, List.map_cons, List.sum_cons]
    omega

/-- C5: the tag-frequency table maps each tag to its total number of
occurrences over every entry's tag list — all entries counted regardless
of status, repeated occurrences counted once each; in particular on two
entries tagged `["A", "B"]` and `["A"]` it yields A ↦ 2 and B ↦ 1. -/
theorem c5_tag_frequency_counts (data : List Entry) (t : String) (e1 e2 : Entry)
    (h1 : e1.tags = ["A", "B"]) (h2 : e2.tags = ["A"]) :
    getTagFrequency data t = (data.map (fun item => item.tags.count t)).sum ∧
      getTagFrequency [e1, e2] "A" = 2 ∧ getTagFrequency [e1, e2] "B" = 1 := by
  refine ⟨?_, ?_, ?_⟩
  · rw [getTagFrequency, getTagFrequency_foldl]
    omega
  · rw [getTagFrequency, getTagFrequency_foldl]
    simp [h1, h2]
  · rw [getTagFrequency, getTagFrequency_foldl]
    simp [h1, h2]

/-- Witness for C5 at the sample store and two concrete tagged entries. -/
theorem c5_tag_frequency_counts_witness :
    (getTagFrequency allSampleData "AI"
        = (allSampleData.map (fun item => item.tags.count "AI")).sum) ∧
      getTagFrequency [entryAB, entryA] "A" = 2 ∧
      getTagFrequency [entryAB, entryA] "B" = 1 :=
  c5_tag_frequency_counts allSampleData "AI" entryAB entryA rfl rfl

/-- C4: any ten-entry store whose read entries carry exactly the ratings
4, 5, 4, 5, 5, 5 yields a read count of 6, `totalItems = 10`, and an
average rating of 4.7 (the mean 28/6 rounded to one decimal place). -/
theorem c4_stats_on_ten_entries (data : List Entry)
    (hlen : data.length = 10)
    (hread : (data.filter (fun item => item.status == "read")).map Entry.rating
        = [some 4, some 5, some 4, some 5, some 5, some 5]) :
    (getReadingStats data).readItems = 6 ∧
      (getReadingStats data).totalItems = 10 ∧
      (getReadingStats data).averageRating = some (47 / 10) := by
  have hcount : (data.filter (fun item => item.status == "read")).length = 6 := by
    rw [← List.length_map _ Entry.rating, hread]
    rfl
  have hsum :
      ((data.filter (fun item => item.status == "read")).map
          (fun item => (((item.rating).getD 0 : ℤ) : ℚ))).sum = 28 := by
    have : (fun item => (((Entry.rating item).getD 0 : ℤ) : ℚ))
        = (fun r : Option Int => (((r).getD 0 : ℤ) : ℚ)) ∘ Entry.rating := rfl
    rw [this, ← List.map_map, hread]
    norm_num
  refine ⟨?_, ?_, ?_⟩
  · simp [getReadingStats, hcount]
  · simp [getReadingStats, hlen]
  · simp only [getReadingStats, hcount, hsum, jsDiv]
    norm_num [jsRound]

/-- Witness for C4 at a concrete ten-entry store. -/
theorem c4_stats_on_ten_entries_witness :
    (getReadingStats tenEntryStore).readItems = 6 ∧
      (getReadingStats tenEntryStore).totalItems = 10 ∧
      (getReadingStats tenEntryStore).averageRating = some (47 / 10) :=
  c4_stats_on_ten_entries tenEntryStore (by decide) (by decide)

/-- C3: a missing date never drops an entry — the view is always a
permutation of the filtered store (sorting excludes nothing); an entry
with `dateRead` null, or `dateAdded` empty, is keyed exactly at the
sentinel "1900-01-01"; and that sentinel date is strictly earlier than
every real date carried by the store `allSampleData` (ISO date strings
compare lexicographically as dates do). -/
theorem c3_missing_dates_sentinel :
    (∀ (store : List Entry) (f : Filters),
        (filteredData store f).Perm (store.filter (passesFilter f))) ∧
      (∀ e : Entry, e.dateRead = none → sortKeyOf .dateRead e = .str "1900-01-01") ∧
      (∀ e : Entry, e.dateAdded = "" → sortKeyOf .dateAdded e = .str "1900-01-01") ∧
      (∀ e ∈ allSampleData, strLt "1900-01-01" e.dateAdded = true ∧
        ∀ d : String, e.dateRead = some d → strLt "1900-01-01" d = true) := by
  refine ⟨fun store f => stableSort_perm _ _, ?_, ?_, ?_⟩
  · intro e h
    simp [sortKeyOf, jsOrStr, h]
  · intro e h
    simp [sortKeyOf, jsOrStr, h]
  · decide

/-- Witness for C3 at a concrete store, entry with a null date, and a
store entry carrying real dates. -/
theorem c3_missing_dates_sentinel_witness :
    (filteredData allSampleData ⟨"", "all", "all", "all", .dateRead, .asc⟩).Perm
        (allSampleData.filter
          (passesFilter ⟨"", "all", "all", "all", .dateRead, .asc⟩)) ∧
      sortKeyOf .dateRead readUnrated = .str "1900-01-01" ∧
      (strLt "1900-01-01" (allSampleData[0]).dateAdded = true ∧
        ∀ d : String, (allSampleData[0]).dateRead = some d →
          strLt "1900-01-01" d = true) :=
  ⟨c3_missing_dates_sentinel.1 allSampleData ⟨"", "all", "all", "all", .dateRead, .asc⟩,
    c3_missing_dates_sentinel.2.1 readUnrated (by decide),
    c3_missing_dates_sentinel.2.2.2 (allSampleData[0]) (by decide)⟩

theorem passesFilter_all (searchTerm : String) (sb : SortField) (ord : SortDir)
    (e : Entry) (hs : searchTerm = "") :
    passesFilter ⟨searchTerm, "all", "all", "all", sb, ord⟩ e = true := by
  subst hs
  simp [passesFilter, matchesSearch, jsToLower_empty, jsIncludes_empty]

/-- C6: with no active filter, sorting by title ascending on three
entries titled "Atomic Habits", "The Lean Startup", "Why We Sleep"
yields exactly that order, and descending yields exactly the reverse. -/
theorem c6_title_sort_order (e1 e2 e3 : Entry)
    (h1 : e1.title = "Atomic Habits") (h2 : e2.title = "The Lean Startup")
    (h3 : e3.title = "Why We Sleep") :
    filteredData [e1, e2, e3] ⟨"", "all", "all", "all", .title, .asc⟩ = [e1, e2, e3] ∧
      filteredData [e1, e2, e3] ⟨"", "all", "all", "all", .title, .desc⟩ = [e3, e2, e1] := by
  have hf : ∀ ord : SortDir,
      List.filter (passesFilter ⟨"", "all", "all", "all", .title, ord⟩) [e1, e2, e3]
        = [e1, e2, e3] := fun ord =>
    List.filter_eq_self.mpr (fun a _ => passesFilter_all "" .title ord a rfl)
  have a12 : sortLe .title .asc e1 e2 = true := by
    simp +decide [sortLe, sortComparator, sortKeyOf, SortKey.ltB, h1, h2]
  have a23 : sortLe .title .asc e2 e3 = true := by
    simp +decide [sortLe, sortComparator, sortKeyOf, SortKey.ltB, h2, h3]
  have d12 : sortLe .title .desc e1 e2 = false := by
    simp +decide [sortLe, sortComparator, sortKeyOf, SortKey.ltB, h1, h2]
  have d13 : sortLe .title .desc e1 e3 = false := by
    simp +decide [sortLe, sortComparator, sortKeyOf, SortKey.ltB, h1, h3]
  have d23 : sortLe .title .desc e2 e3 = false := by
    simp +decide [sortLe, sortComparator, sortKeyOf, SortKey.ltB, h2, h3]
  constructor
  · rw [filteredData, hf .asc]
    simp [stableSort, insertLe, a12, a23]
  · rw [filteredData, hf .desc]
    simp [stableSort, insertLe, d12, d13, d23]

/-- Witness for C6 at three concrete entries bearing those titles. -/
theorem c6_title_sort_order_witness :
    filteredData [mkE "Atomic Habits" "read" none, mkE "The Lean Startup" "read" none,
        mkE "Why We Sleep" "read" none] ⟨"", "all", "all", "all", .title, .asc⟩
      = [mkE "Atomic Habits" "read" none, mkE "The Lean Startup" "read" none,
          mkE "Why We Sleep" "read" none] ∧
      filteredData [mkE "Atomic Habits" "read" none, mkE "The Lean Startup" "read" none,
          mkE "Why We Sleep" "read" none] ⟨"", "all", "all", "all", .title, .desc⟩
        = [mkE "Why We Sleep" "read" none, mkE "The Lean Startup" "read" none,
            mkE "Atomic Habits" "read" none] :=
  c6_title_sort_order (mkE "Atomic Habits" "read" none)
    (mkE "The Lean Startup" "read" none) (mkE "Why We Sleep" "read" none)
    rfl rfl rfl

/-- C7: with empty search and status/type "all", the tag filter "AI"
admits exactly the store entries whose tag list contains the exact,
case-sensitive string "AI" — an entry tagged only "ai" or "AI Ethics"
is excluded — even though the free-text search "AI" does match the tag
"ai" case-insensitively. -/
theorem c7_exact_tag_filter (store : List Entry) (sb : SortField) (ord : SortDir)
    (e : Entry) (he : e ∈ store) :
    (e ∈ filteredData store ⟨"", "all", "all", "AI", sb, ord⟩ ↔ "AI" ∈ e.tags) ∧
      (e.tags = ["ai"] → e ∉ filteredData store ⟨"", "all", "all", "AI", sb, ord⟩) ∧
      (e.tags = ["AI Ethics"] → e ∉ filteredData store ⟨"", "all", "all", "AI", sb, ord⟩) ∧
      (e.tags = ["ai"] → e ∈ filteredData store ⟨"AI", "all", "all", "all", sb, ord⟩) := by
  refine ⟨?_, ?_, ?_, ?_⟩
  · simp +decide [mem_filteredData, passesFilter_iff, he, ciContained,
      jsToLower_empty, jsIncludes_empty]
  · intro h
    simp +decide [mem_filteredData, passesFilter_iff, he, h]
  · intro h
    simp +decide [mem_filteredData, passesFilter_iff, he, h]
  · intro h
    rw [mem_filteredData]
    exact ⟨he, by simp +decide [passesFilter, matchesSearch, h]⟩

/-- Witness for C7 at the sample store: the entry tagged "AI" passes the
exact tag filter, and a lower-case "ai" entry reaches the view through
the case-insensitive search but not through the tag filter. -/
theorem c7_exact_tag_filter_witness :
    (allSampleData[6] ∈ filteredData allSampleData ⟨"", "all", "all", "AI", .title, .asc⟩ ↔
        "AI" ∈ (allSampleData[6]).tags) ∧
      (entryLowerAi.tags = ["ai"] →
        entryLowerAi ∉ filteredData [entryLowerAi] ⟨"", "all", "all", "AI", .title, .asc⟩) ∧
      (entryLowerAi.tags = ["ai"] →
        entryLowerAi ∈ filteredData [entryLowerAi] ⟨"AI", "all", "all", "all", .title, .asc⟩) :=
  ⟨(c7_exact_tag_filter allSampleData .title .asc (allSampleData[6]) (by decide)).1,
    (c7_exact_tag_filter [entryLowerAi] .title .asc entryLowerAi (by decide)).2.1,
    (c7_exact_tag_filter [entryLowerAi] .title .asc entryLowerAi (by decide)).2.2.2⟩

/-- C8: computing the view never touches the store — run on a heap of
arrays, `filteredData` returns a freshly allocated reference distinct
from the store reference, the store array is unchanged afterwards, and
the fresh array holds the filtered, sorted view. -/
theorem c8_store_unchanged (h : Heap) (storeRef : Nat) (f : Filters)
    (href : storeRef < h.next) :
    (filteredDataProg h storeRef f).1 ≠ storeRef ∧
      ((filteredDataProg h storeRef f).2).arrays storeRef = h.arrays storeRef ∧
      ((filteredDataProg h storeRef f).2).arrays ((filteredDataProg h storeRef f).1)
        = filteredData (h.arrays storeRef) f := by
  have hne : storeRef ≠ h.next := Nat.ne_of_lt href
  refine ⟨fun hc => hne hc.symm, ?_, ?_⟩
  · simp [filteredDataProg, Heap.alloc, Heap.write, hne]
  · simp [filteredDataProg, Heap.alloc, Heap.write, filteredData]

/-- Witness for C8 at a one-array heap holding the sample store. -/
theorem c8_store_unchanged_witness :
    (filteredDataProg ⟨fun _ => allSampleData, 1⟩ 0
        ⟨"", "all", "all", "all", .dateAdded, .desc⟩).1 ≠ 0 ∧
      ((filteredDataProg ⟨fun _ => allSampleData, 1⟩ 0
          ⟨"", "all", "all", "all", .dateAdded, .desc⟩).2).arrays 0
        = (⟨fun _ => allSampleData, 1⟩ : Heap).arrays 0 ∧
      ((filteredDataProg ⟨fun _ => allSampleData, 1⟩ 0
          ⟨"", "all", "all", "all", .dateAdded, .desc⟩).2).arrays
          ((filteredDataProg ⟨fun _ => allSampleData, 1⟩ 0
            ⟨"", "all", "all", "all", .dateAdded, .desc⟩).1)
        = filteredData ((⟨fun _ => allSampleData, 1⟩ : Heap).arrays 0)
            ⟨"", "all", "all", "all", .dateAdded, .desc⟩ :=
  c8_store_unchanged ⟨fun _ => allSampleData, 1⟩ 0
    ⟨"", "all", "all", "all", .dateAdded, .desc⟩ (by decide)

theorem optionCast_elim (o : Option Int) :
    ((o.getD 0 : ℤ) : ℚ) = o.elim (0 : ℚ) (fun r => (r : ℚ)) := by
  cases o <;> simp

/-- C9: a read entry with no rating contributes 0 to the numerator while
still counting in the denominator — whenever at least one read entry
exists, the average rating is the one-decimal rounding of
(sum over read entries of (rating if present, else 0)) / (read count),
and likewise for the average impact with the impact field. -/
theorem c9_unrated_reads_average (data : List Entry)
    (h : 0 < (data.filter (fun item => item.status == "read")).length) :
    (getReadingStats data).averageRating =
      some (jsRound
          ((((data.filter (fun item => item.status == "read")).map
                (fun item => (item.rating).elim (0 : ℚ) (fun r => (r : ℚ)))).sum /
              ((data.filter (fun item => item.status == "read")).length : ℚ)) * 10) / 10) ∧
      (getReadingStats data).averageImpact =
        some (jsRound
            ((((data.filter (fun item => item.status == "read")).map
                  (fun item => (item.impact).elim (0 : ℚ) (fun r => (r : ℚ)))).sum /
                ((data.filter (fun item => item.status == "read")).length : ℚ)) * 10) / 10) := by
  have hne : ((data.filter (fun item => item.status == "read")).length : ℚ) ≠ 0 :=
    Nat.cast_ne_zero.mpr (Nat.pos_iff_ne_zero.mp h)
  constructor <;> simp [getReadingStats, jsDiv, hne, optionCast_elim]

/-- Witness for C9: one rated-4 and one unrated read entry average to
2.0 — the unrated entry pulls the average down instead of being skipped. -/
theorem c9_unrated_reads_average_witness :
    0 < (List.filter (fun item => item.status == "read") [readRated4, readUnrated]).length ∧
      (getReadingStats [readRated4, readUnrated]).averageRating = some 2 := by
  refine ⟨by decide, ?_⟩
  rw [(c9_unrated_reads_average [readRated4, readUnrated] (by decide)).1]
  norm_num [readRated4, readUnrated, mkE, jsRound]

theorem charsLt_irrefl (l : List Char) : charsLt l l = false := by
  induction l with
  | nil => rfl
  | cons a as ih => simp [charsLt, ih]

theorem charsLt_asymm (l1 l2 : List Char) (h : charsLt l1 l2 = true) :
    charsLt l2 l1 = false := by
  induction l1 generalizing l2 with
  | nil =>
    cases l2 <;> simp [charsLt] at h ⊢
  | cons a as ih =>
    cases l2 with
    | nil => simp [charsLt] at h
    | cons b bs =>
      simp only [charsLt, Bool.or_eq_true, Bool.and_eq_true, decide_eq_true_eq,
        beq_iff_eq] at h
      rw [Bool.eq_false_iff]
      intro h2
      simp only [charsLt, Bool.or_eq_true, Bool.and_eq_true, decide_eq_true_eq,
        beq_iff_eq] at h2
      rcases h with h | ⟨hab, h1⟩ <;> rcases h2 with h2 | ⟨hba, h3⟩
      · exact lt_asymm h h2
      · rw [hba] at h
        exact lt_irrefl _ h
      · rw [hab] at h2
        exact lt_irrefl _ h2
      · rw [ih bs h1] at h3
        exact Bool.false_ne_true h3

theorem charsLt_connex (l1 l2 : List Char) (h1 : charsLt l1 l2 = false)
    (h2 : charsLt l2 l1 = false) : l1 = l2 := by
  induction l1 generalizing l2 with
  | nil =>
    cases l2 with
    | nil => rfl
    | cons b bs => simp [charsLt] at h1
  | cons a as ih =>
    cases l2 with
    | nil => simp [charsLt] at h2
    | cons b bs =>
      have hnab : ¬ a < b := fun hl => by simp [charsLt, hl] at h1
      have hnba : ¬ b < a := fun hl => by simp [charsLt, hl] at h2
      have hab : a = b := le_antisymm (le_of_not_lt hnba) (le_of_not_lt hnab)
      subst hab
      have h1b : charsLt as bs = false := by simpa [charsLt] using h1
      have h2b : charsLt bs as = false := by simpa [charsLt] using h2
      rw [ih bs h1b h2b]

theorem strLt_connex (s t : String) : s = t ∨ strLt s t = true ∨ strLt t s = true := by
  cases hb1 : strLt s t with
  | true => exact .inr (.inl rfl)
  | false =>
    cases hb2 : strLt t s with
    | true => exact .inr (.inr rfl)
    | false =>
      refine .inl ?_
      exact congrArg String.mk (charsLt_connex s.data t.data hb1 hb2)

theorem sortKey_ltB_irrefl (k : SortKey) : SortKey.ltB k k = false := by
  cases k with
  | str s => exact charsLt_irrefl s.data
  | num n => simp [SortKey.ltB]

theorem sortKey_ltB_asymm (j k : SortKey) (h : SortKey.ltB j k = true) :
    SortKey.ltB k j = false := by
  cases j with
  | str a =>
    cases k with
    | str b => exact charsLt_asymm a.data b.data h
    | num b => simp [SortKey.ltB] at h
  | num a =>
    cases k with
    | str b => simp [SortKey.ltB] at h
    | num b =>
      simp only [SortKey.ltB, decide_eq_true_eq] at h
      simp only [SortKey.ltB, decide_eq_false_iff_not]
      exact lt_asymm h

theorem sortKey_trichotomy (sb : SortField) (a b : Entry) :
    sortKeyOf sb a = sortKeyOf sb b ∨
      SortKey.ltB (sortKeyOf sb a) (sortKeyOf sb b) = true ∨
      SortKey.ltB (sortKeyOf sb b) (sortKeyOf sb a) = true := by
  cases sb <;>
    simp only [sortKeyOf, SortKey.ltB, SortKey.str.injEq, SortKey.num.injEq]
  · exact strLt_connex _ _
  · exact strLt_connex _ _
  · exact strLt_connex _ _
  · rcases lt_trichotomy ((Entry.rating a).getD 0) ((Entry.rating b).getD 0) with h | h | h
    · exact .inr (.inl (by simpa using h))
    · exact .inl h
    · exact .inr (.inr (by simpa using h))

/-- C10: the comparator only ever returns 1 or -1, never 0; on entries
whose sort keys are equal (in particular whose raw field values are
equal) it returns -1 in both argument orders and both directions; on
unequal keys it is antisymmetric. -/
theorem c10_comparator_ties (sb : SortField) (ord : SortDir) (a b : Entry) :
    (sortComparator sb ord a b = 1 ∨ sortComparator sb ord a b = -1) ∧
      (sortKeyOf sb a = sortKeyOf sb b →
        sortComparator sb ord a b = -1 ∧ sortComparator sb ord b a = -1) ∧
      (sortKeyOf sb a ≠ sortKeyOf sb b →
        sortComparator sb ord b a = -sortComparator sb ord a b) := by
  refine ⟨?_, ?_, ?_⟩
  · cases ord <;> simp only [sortComparator] <;> split <;> simp
  · intro hk
    cases ord <;> simp [sortComparator, hk, sortKey_ltB_irrefl]
  · intro hk
    rcases sortKey_trichotomy sb a b with h | h | h
    · exact absurd h hk
    · have h2 := sortKey_ltB_asymm _ _ h
      cases ord <;> simp [sortComparator, h, h2]
    · have h2 := sortKey_ltB_asymm _ _ h
      cases ord <;> simp [sortComparator, h, h2]

/-- Witness for C10: a concrete title tie answers -1 both ways, and a
concrete unequal pair is antisymmetric. -/
theorem c10_comparator_ties_witness :
    (sortComparator .title .asc (mkE "T" "read" none) (mkE "T" "to-read" none) = 1 ∨
        sortComparator .title .asc (mkE "T" "read" none) (mkE "T" "to-read" none) = -1) ∧
      (sortComparator .title .asc (mkE "T" "read" none) (mkE "T" "to-read" none) = -1 ∧
        sortComparator .title .asc (mkE "T" "to-read" none) (mkE "T" "read" none) = -1) ∧
      sortComparator .title .desc (mkE "B" "read" none) (mkE "A" "read" none)
        = -sortComparator .title .desc (mkE "A" "read" none) (mkE "B" "read" none) :=
  ⟨(c10_comparator_ties .title .asc (mkE "T" "read" none) (mkE "T" "to-read" none)).1,
    (c10_comparator_ties .title .asc (mkE "T" "read" none)
      (mkE "T" "to-read" none)).2.1 (by decide),
    (c10_comparator_ties .title .desc (mkE "A" "read" none)
      (mkE "B" "read" none)).2.2 (by decide)⟩

end ReadingLog
